import Mathlib

/-!
Shallow embedding of `src/pcflib/betteryao/garbled_circuit_m.h`, the session
state and inline operations of the garbled-circuit core (trim_output, recv,
send, pass_check, init), together with spec-modelled stand-ins for the
declarations whose bodies are not in the repository (gen_init, evl_init,
KDF128, KDF256).  Byte sequences (`Bytes`) are lists of naturals; 128-bit
vector registers (`__m128i`) are naturals understood modulo 2^128; the
unsigned 32-bit counters are naturals, with an explicit `% 2^32` wherever the
C++ arithmetic can wrap.  The declarations whose bodies are missing from the
repository (gen_init, evl_init, KDF128, KDF256, set_const_key, the gate
processors gen_next_gate_m and evl_next_gate_m, and the commitment-recording
gen/evl_next_gen_inp_com) are modelled from the spec, as marked on each.
-/

namespace PCF

/-- `Bytes` from the support library: a byte string, one natural per byte. -/
abbrev Bytes := List Nat

/-- The global configuration object `Env`: security parameter `k()` (key
length in bits), `key_size_in_bytes()`, and the external hash collaborator
`Bytes::hash(k)` treated as a black box (`hash b k` is the digest of `b` at
security parameter `k`). -/
structure Env where
  k : Nat
  key_size_in_bytes : Nat
  hash : Bytes → Nat → Bytes

/-- The session state `garbled_circuit_m_t` (header lines 14-54).  External
opaque collaborators (the `Hash` accumulator, the `Prng`, the `PCFState`
cursor) are carried as opaque-but-concrete data: the hash accumulator as its
byte contents, the PRNG as a numeric seed state, the circuit-engine cursor as
a unit.  The incoming-buffer iterator `m_i_bufr_ix` is the offset from
`m_i_bufr.begin()`. -/
structure garbled_circuit_m_t where
  m_bufr : Bytes
  m_hash : Bytes
  m_R : Nat
  m_ot_keys : List Bytes
  m_prng : Nat
  m_gate_ix : Nat
  m_gen_inp_hash_ix : Nat
  m_gen_inp_ix : Nat
  m_evl_inp_ix : Nat
  m_gen_out_ix : Nat
  m_evl_out_ix : Nat
  m_clear_mask : Nat
  m_gen_inp_mask : Bytes
  m_gen_inp : Bytes
  m_evl_inp : Bytes
  m_gen_out : Bytes
  m_evl_out : Bytes
  m_gen_inp_com : List Bytes
  m_gen_inp_decom : List Bytes
  m_gen_inp_hash : Bytes
  m_o_bufr : Bytes
  m_i_bufr : Bytes
  m_i_bufr_ix : Nat
  m_st : Unit
  m_gen_inp_cnt : Nat
  m_evl_inp_cnt : Nat
  m_const_wire : Nat × Nat
deriving Repr

/-- `std::vector::resize(n)`: truncate to `n` elements, or pad with zero
bytes up to `n`. -/
def Bytes.resize (l : Bytes) (n : Nat) : Bytes :=
  l.take n ++ List.replicate (n - l.length) 0

/-- `Bytes::set_ith_bit(i, 1)`: set bit `i % 8` of byte `i / 8`
(little-endian bit order within the byte string). -/
def set_ith_bit (b : Bytes) (i : Nat) : Bytes :=
  b.set (i / 8) ((b.getD (i / 8) 0) ||| (1 <<< (i % 8)))

/-- `_mm_loadu_si128` on a 16-byte buffer: the 128-bit value, little-endian. -/
def bytesToNatLE (b : Bytes) : Nat :=
  b.foldr (fun x acc => x + 256 * acc) 0

/-- The clear-mask computed by `init` (header lines 132-134): a 16-byte
buffer of zeroes with bits `0 .. k-1` set, loaded as a 128-bit value. -/
def clearMaskVal (k : Nat) : Nat :=
  bytesToNatLE ((List.range k).foldl (fun b i => set_ith_bit b i) (List.replicate 16 0))

/-- `init` (header lines 119-135): zero the gate counter and the four
role-specific input/output indices, clear the outgoing buffer, reset the
generator-input hash accumulator to `key_size_in_bytes` zero bytes, and
recompute the clear-mask with the low `Env::k()` bits set.  (It does not
touch `m_gen_inp_hash_ix`.) -/
def init (env : Env) (cct : garbled_circuit_m_t) : garbled_circuit_m_t :=
  { cct with
    m_gate_ix := 0
    m_gen_inp_ix := 0
    m_evl_inp_ix := 0
    m_gen_out_ix := 0
    m_evl_out_ix := 0
    m_o_bufr := []
    m_gen_inp_hash := List.replicate env.key_size_in_bytes 0
    m_clear_mask := clearMaskVal env.k }

/-- `trim_output` (header lines 59-63): resize each output buffer to
`(ix + 7) / 8` bytes, where the addition is carried out on the `uint32_t`
counter and therefore wraps modulo `2^32`. -/
def trim_output (cct : garbled_circuit_m_t) : garbled_circuit_m_t :=
  { cct with
    m_gen_out := Bytes.resize cct.m_gen_out (((cct.m_gen_out_ix + 7) % 2 ^ 32) / 8)
    m_evl_out := Bytes.resize cct.m_evl_out (((cct.m_evl_out_ix + 7) % 2 ^ 32) / 8) }

/-- `recv` (header lines 65-70): clear the incoming buffer, append the
delivered bytes, and point the read iterator at the new beginning. -/
def recv (cct : garbled_circuit_m_t) (i_data : Bytes) : garbled_circuit_m_t :=
  { cct with
    m_i_bufr := ([] : Bytes) ++ i_data
    m_i_bufr_ix := 0 }

/-- `send` (header lines 72-77): swap the outgoing buffer into a fresh local
and return it, leaving the state's outgoing buffer empty.  Returned as the
extracted bytes paired with the post-state. -/
def send (cct : garbled_circuit_m_t) : Bytes × garbled_circuit_m_t :=
  (([] : Bytes).append cct.m_o_bufr, { cct with m_o_bufr := [] })

/-- `pass_check` (header lines 107-117): conjunctively accumulate, over the
indices of the decommitment vector in order, whether the hash of the ix-th
decommitment at `Env::k()` equals the ix-th commitment. -/
def pass_check (env : Env) (cct : garbled_circuit_m_t) : Bool :=
  (List.range cct.m_gen_inp_decom.length).foldl
    (fun pass_chk ix =>
      pass_chk && decide
        (env.hash (cct.m_gen_inp_decom.getD ix []) env.k = cct.m_gen_inp_com.getD ix []))
    true

/-- The `assert` at the entry of `pass_check` (header line 109). -/
def pass_check_assertion (cct : garbled_circuit_m_t) : Prop :=
  cct.m_gen_inp_decom.length = cct.m_gen_inp_com.length

/-- Modelled from the spec: the `Prng` collaborator's body is not in the
repository; the spec (§6) states it is seeded once and produces a
deterministic byte stream.  Modelled as a deterministic numeric draw from the
seed bytes. -/
def prng_draw (seed : Bytes) : Nat :=
  bytesToNatLE seed

/-- Modelled from the spec: the body of `KDF128` is not in the repository
(only its declaration, header line 84).  The spec (§4.2) states it is a
deterministic tweakable pseudorandom function from a label and a key to one
128-bit output; modelled as a pure byte-mixing function producing 16 bytes. -/
def KDF128 (inp key : Bytes) : Bytes :=
  (List.range 16).map (fun i => (bytesToNatLE inp + bytesToNatLE key * (i + 1) + i) % 256)

/-- Modelled from the spec: the body of `KDF256` is not in the repository
(only its declaration, header line 85).  The spec (§4.2) states it is the
double-width variant of the same deterministic function, producing two
128-bit outputs; modelled as 32 bytes derived purely from (label, key). -/
def KDF256 (inp key : Bytes) : Bytes :=
  KDF128 inp key ++ KDF128 (inp ++ [1]) key

/-- Modelled from the spec: the body of `gen_init` is not in the repository
(only its declaration, header line 56).  Per spec §4.1 the generator
initializer derives the global offset `R` from the seeded deterministic
generator with its point-and-permute tag bit (the low bit) forced to 1,
stores the OT key vector and the generator's input mask, derives the
generator-input commitments over the per-wire labels and stores the labels
as decommitments (spec §4.5: commitment and decommitment stored per wire, in
lockstep), and resets all counters, the outgoing buffer and the clear-mask
via the common `init`. -/
def gen_init (env : Env) (keys : List Bytes) (gen_inp_mask seed : Bytes)
    (cct : garbled_circuit_m_t) : garbled_circuit_m_t :=
  let cct1 := init env cct
  let decoms := keys
  { cct1 with
    m_R := 2 * (prng_draw seed % 2 ^ 127) + 1
    m_prng := prng_draw seed
    m_ot_keys := keys
    m_gen_inp_mask := gen_inp_mask
    m_gen_inp_decom := decoms
    m_gen_inp_com := decoms.map (fun d => env.hash d env.k) }

/-- Modelled from the spec: the body of `evl_init` is not in the repository
(only its declaration, header line 57).  Per spec §4.1 the evaluator
initializer stores its OT key vector and the masked generator input, and
does not derive `R`'s key bits; the spec invariant (§3) nevertheless keeps
`R`'s tag bit 1 for every session for its entire lifetime, so the field is
modelled as holding only the set tag bit.  Counters, outgoing buffer and
clear-mask are reset via the common `init`. -/
def evl_init (env : Env) (keys : List Bytes) (masked_gen_inp seed : Bytes)
    (cct : garbled_circuit_m_t) : garbled_circuit_m_t :=
  let cct1 := init env cct
  { cct1 with
    m_R := 1
    m_prng := prng_draw seed
    m_ot_keys := keys
    m_gen_inp := masked_gen_inp
    m_gen_inp_com := []
    m_gen_inp_decom := [] }

/-- Modelled from the spec: the bodies of `gen_next_gen_inp_com` and
`evl_next_gen_inp_com` (header lines 100-101) are not in the repository.
Per spec §4.5 the commitment scheme stores, per generator-input wire, a
commitment (a digest at `Env::k()`) together with its decommitment (the
opening value), the two vectors growing in lockstep; the opening is derived
from the row material and the wire index. -/
def next_gen_inp_com (env : Env) (row : Bytes) (kx : Nat)
    (cct : garbled_circuit_m_t) : garbled_circuit_m_t :=
  let d : Bytes := row ++ [kx % 256]
  { cct with
    m_gen_inp_decom := cct.m_gen_inp_decom ++ [d]
    m_gen_inp_com := cct.m_gen_inp_com ++ [env.hash d env.k] }

/-- Modelled from the spec: the externally-owned gate description (spec §3)
exposes a type tag — XOR, AND (non-linear), INV — or one of the role
input/output primitives the gate processors handle (spec §4.3/§4.4). -/
inductive GateTag
  | xorGate
  | andGate
  | invGate
  | genInpGate
  | evlInpGate
  | genOutGate
  | evlOutGate

/-- XOR of two 128-bit wire labels. -/
def xor128 (x y : Nat) : Nat :=
  Nat.xor x y % 2 ^ 128

/-- A natural written as `len` little-endian bytes. -/
def natToBytesLE (n len : Nat) : Bytes :=
  (List.range len).map (fun i => n / 256 ^ i % 256)

/-- `Bytes::get_ith_bit(i)`: bit `i % 8` of byte `i / 8`. -/
def get_ith_bit (b : Bytes) (i : Nat) : Nat :=
  ((b.getD (i / 8) 0) >>> (i % 8)) &&& 1

/-- Accumulate one output bit at bit position `ix`, growing the byte buffer
with zero bytes as needed (spec §4.3: output bits are accumulated at the
position given by the output index; the buffer is only trimmed later by
`trim_output`). -/
def accum_out_bit (buf : Bytes) (ix bit : Nat) : Bytes :=
  let buf2 := buf ++ List.replicate (ix / 8 + 1 - buf.length) 0
  if bit % 2 = 1 then set_ith_bit buf2 ix else buf2

/-- Modelled from the spec: of the label pair `(x, x XOR R)` of a wire, the
one whose point-and-permute tag bit is `t`; the two tags differ because
`R`'s tag bit is 1 (spec §3). -/
def sel_label (cct : garbled_circuit_m_t) (x t : Nat) : Nat :=
  if x &&& 1 = t then x else xor128 x cct.m_R

/-- Modelled from the spec: the masking value of one garbled row (spec
§4.3) — the key-derivation function keyed by the two input labels, their tag
bits zeroed by the clear-mask before use as hash input (spec §3), and
tweaked by the current gate counter (the domain separator, spec §3). -/
def gate_mask (cct : garbled_circuit_m_t) (xa yb : Nat) : Nat :=
  bytesToNatLE (KDF128 (natToBytesLE cct.m_gate_ix 8)
    (natToBytesLE (xa &&& cct.m_clear_mask) 16 ++
      natToBytesLE (yb &&& cct.m_clear_mask) 16)) % 2 ^ 128

/-- Modelled from the spec: the fresh false-output label of a non-linear
gate, derived deterministically from the session's generator state and the
gate counter; the true label is reached by `R` (free-XOR, spec §3). -/
def gate_out_label (cct : garbled_circuit_m_t) (x y : Nat) : Nat :=
  bytesToNatLE (KDF128 (natToBytesLE cct.m_gate_ix 8)
    (natToBytesLE cct.m_prng 16 ++ natToBytesLE (xor128 x y) 16)) % 2 ^ 128

/-- Modelled from the spec: the body of `gen_next_gate_m` (header line 97)
is not in the repository (declaration only).  Per spec §4.3 the generator's
per-gate callback: an XOR gate returns the XOR of the input labels with no
transmitted material; an INV gate returns the input label (its alternate
value is reached via `R`); a non-linear (AND) gate derives, for each of the
four input combinations, a masking value keyed by the two input labels and
tweaked by the gate counter, XORs it with the true output label for that
combination, appends the rows to the outgoing buffer in tag-determined
order, and increments the gate counter by exactly one (modelled row policy:
all four rows are sent; spec §9 leaves row reduction open and requires only
a fixed policy identical on both roles); a generator-input gate consumes
the next bit of the masked generator input to pick the wire's label; output
gates accumulate the label's output bit into the role's output buffer at
the position given by the output index.  `x`, `y` are the input wire labels
held by the external circuit engine; the returned label is what the engine
stores for the output wire (the `void*` continuation is the engine's). -/
def gen_next_gate_m (g : GateTag) (x y : Nat) (cct : garbled_circuit_m_t) :
    Nat × garbled_circuit_m_t :=
  match g with
  | .xorGate => (xor128 x y, cct)
  | .invGate => (x, cct)
  | .andGate =>
      let out0 := gate_out_label cct x y
      let row := fun (ta tb : Nat) =>
        let xa := sel_label cct x ta
        let yb := sel_label cct y tb
        let s := (if xa = x then 0 else 1) * (if yb = y then 0 else 1)
        natToBytesLE (xor128 (gate_mask cct xa yb)
          (if s = 1 then xor128 out0 cct.m_R else out0)) 16
      (out0,
        { cct with
          m_o_bufr := cct.m_o_bufr ++ row 0 0 ++ row 0 1 ++ row 1 0 ++ row 1 1
          m_gate_ix := cct.m_gate_ix + 1 })
  | .genInpGate =>
      let bit := get_ith_bit cct.m_gen_inp_mask cct.m_gen_inp_ix
      let lab0 := bytesToNatLE (KDF128 (natToBytesLE cct.m_gen_inp_ix 8)
        (natToBytesLE cct.m_prng 16)) % 2 ^ 128
      ((if bit = 1 then xor128 lab0 cct.m_R else lab0),
        { cct with m_gen_inp_ix := cct.m_gen_inp_ix + 1 })
  | .evlInpGate =>
      (bytesToNatLE (cct.m_ot_keys.getD cct.m_evl_inp_ix []) % 2 ^ 128,
        { cct with m_evl_inp_ix := cct.m_evl_inp_ix + 1 })
  | .genOutGate =>
      (x, { cct with
        m_gen_out := accum_out_bit cct.m_gen_out cct.m_gen_out_ix (x &&& 1)
        m_gen_out_ix := cct.m_gen_out_ix + 1 })
  | .evlOutGate =>
      (x, { cct with
        m_evl_out := accum_out_bit cct.m_evl_out cct.m_evl_out_ix (x &&& 1)
        m_evl_out_ix := cct.m_evl_out_ix + 1 })

/-- Modelled from the spec: the body of `evl_next_gate_m` (header line 98)
is not in the repository (declaration only).  Per spec §4.4 the evaluator
mirrors the generator: XOR/INV compute the same label algebra without
knowing `R`; a non-linear gate derives the masking value from the held
input labels and the synchronized gate counter, reads the one row matching
its input tag-bit combination from the incoming buffer (the cursor advances
past the gate's fixed-size rows, spec §4.6), recovers the output label by
XOR, and increments the gate counter by exactly one; a generator-input gate
consumes the next staged label from the incoming buffer; evaluator-input
and output handling mirrors the generator's, writing the evaluator-side
buffers. -/
def evl_next_gate_m (g : GateTag) (x y : Nat) (cct : garbled_circuit_m_t) :
    Nat × garbled_circuit_m_t :=
  match g with
  | .xorGate => (xor128 x y, cct)
  | .invGate => (x, cct)
  | .andGate =>
      let idx := 2 * (x &&& 1) + (y &&& 1)
      let rowv := bytesToNatLE ((cct.m_i_bufr.drop (cct.m_i_bufr_ix + 16 * idx)).take 16)
      (xor128 (gate_mask cct x y) rowv,
        { cct with
          m_i_bufr_ix := cct.m_i_bufr_ix + 64
          m_gate_ix := cct.m_gate_ix + 1 })
  | .genInpGate =>
      (bytesToNatLE ((cct.m_i_bufr.drop cct.m_i_bufr_ix).take 16),
        { cct with
          m_i_bufr_ix := cct.m_i_bufr_ix + 16
          m_gen_inp_ix := cct.m_gen_inp_ix + 1 })
  | .evlInpGate =>
      (bytesToNatLE (cct.m_ot_keys.getD cct.m_evl_inp_ix []) % 2 ^ 128,
        { cct with m_evl_inp_ix := cct.m_evl_inp_ix + 1 })
  | .genOutGate =>
      (x, { cct with
        m_gen_out := accum_out_bit cct.m_gen_out cct.m_gen_out_ix (x &&& 1)
        m_gen_out_ix := cct.m_gen_out_ix + 1 })
  | .evlOutGate =>
      (x, { cct with
        m_evl_out := accum_out_bit cct.m_evl_out cct.m_evl_out_ix (x &&& 1)
        m_evl_out_ix := cct.m_evl_out_ix + 1 })

/-- Modelled from the spec: the body of `set_const_key` (header line 90) is
not in the repository (declaration only).  The state holds keys for the
boolean constants 0 and 1 (`m_const_wire`, header line 52); per spec §3 the
constant-wire label pairs are part of the session state, and
`set_const_key(cct, c, key)` records the key for constant `c`. -/
def set_const_key (cct : garbled_circuit_m_t) (c : Nat) (key : Bytes) :
    garbled_circuit_m_t :=
  if c = 0 then
    { cct with m_const_wire := (bytesToNatLE key % 2 ^ 128, cct.m_const_wire.2) }
  else
    { cct with m_const_wire := (cct.m_const_wire.1, bytesToNatLE key % 2 ^ 128) }

/-- A state produced by one of the two role-specific initializers. -/
inductive RoleInit (env : Env) : garbled_circuit_m_t → Prop
  | gen (keys : List Bytes) (gen_inp_mask seed : Bytes) (cct : garbled_circuit_m_t) :
      RoleInit env (gen_init env keys gen_inp_mask seed cct)
  | evl (keys : List Bytes) (masked_gen_inp seed : Bytes) (cct : garbled_circuit_m_t) :
      RoleInit env (evl_init env keys masked_gen_inp seed cct)

/-- States reachable from a start state by the core's state-mutating
operations: `init`, `trim_output`, `recv`, the extraction `send` (whose
post-state is its second component), the gate processors `gen_next_gate_m`
and `evl_next_gate_m` invoked with an arbitrary gate and arbitrary input
wire labels, `set_const_key`, and the commitment-recording step
`next_gen_inp_com`.  `pass_check` and `get_const_key` are `const` and
mutate nothing. -/
inductive Reach (env : Env) : garbled_circuit_m_t → garbled_circuit_m_t → Prop
  | refl (s : garbled_circuit_m_t) : Reach env s s
  | init_step {s t : garbled_circuit_m_t} : Reach env s t → Reach env s (init env t)
  | trim_step {s t : garbled_circuit_m_t} : Reach env s t → Reach env s (trim_output t)
  | recv_step {s t : garbled_circuit_m_t} (d : Bytes) : Reach env s t → Reach env s (recv t d)
  | send_step {s t : garbled_circuit_m_t} : Reach env s t → Reach env s (send t).2
  | gen_gate_step {s t : garbled_circuit_m_t} (g : GateTag) (x y : Nat) :
      Reach env s t → Reach env s (gen_next_gate_m g x y t).2
  | evl_gate_step {s t : garbled_circuit_m_t} (g : GateTag) (x y : Nat) :
      Reach env s t → Reach env s (evl_next_gate_m g x y t).2
  | const_key_step {s t : garbled_circuit_m_t} (c : Nat) (key : Bytes) :
      Reach env s t → Reach env s (set_const_key t c key)
  | com_step {s t : garbled_circuit_m_t} (row : Bytes) (kx : Nat) :
      Reach env s t → Reach env s (next_gen_inp_com env row kx t)

/-- A concrete configuration for witnesses: k = 80 bits, 10-byte keys, and a
concrete stand-in for the external hash (the identity on the bytes). -/
def env0 : Env :=
  ⟨80, 10, fun b _k => b⟩

/-- A concrete all-empty session state for witnesses. -/
def st0 : garbled_circuit_m_t :=
  ⟨[], [], 0, [], 0, 0, 0, 0, 0, 0, 0, 0, [], [], [], [], [], [], [], [], [], [], 0,
    (), 0, 0, (0, 0)⟩

/-- A concrete state with one matching commitment/decommitment pair. -/
def stCom : garbled_circuit_m_t :=
  { st0 with m_gen_inp_decom := [[1, 2]], m_gen_inp_com := [[1, 2]] }

/-- A concrete state whose generator-output bit counter sits at the top of
the `uint32_t` range, where `m_gen_out_ix + 7` wraps. -/
def stOverflow : garbled_circuit_m_t :=
  { st0 with m_gen_out_ix := 2 ^ 32 - 1 }

/-- A concrete state with 10 generator-output bits and 3 staged output
bytes. -/
def stTen : garbled_circuit_m_t :=
  { st0 with m_gen_out_ix := 10, m_gen_out := [9, 9, 9] }

/-- A concrete state whose `m_gen_inp_hash_ix` is nonzero. -/
def stHashIx : garbled_circuit_m_t :=
  { st0 with m_gen_inp_hash_ix := 3 }

/- ### Helper lemmas -/

theorem resize_length (l : Bytes) (n : Nat) : (Bytes.resize l n).length = n := by
  simp [Bytes.resize]
  omega

theorem resize_eq_of_length (l : Bytes) (n : Nat) (h : l.length = n) :
    Bytes.resize l n = l := by
  subst h
  simp [Bytes.resize]

theorem resize_resize (l : Bytes) (n : Nat) :
    Bytes.resize (Bytes.resize l n) n = Bytes.resize l n :=
  resize_eq_of_length _ _ (resize_length l n)

theorem foldl_and_eq (p : Nat → Bool) (l : List Nat) :
    ∀ b : Bool, l.foldl (fun acc i => acc && p i) b = (b && l.all p) := by
  induction l with
  | nil => intro b; simp
  | cons a t ih => intro b; simp [ih, Bool.and_assoc]

set_option maxRecDepth 10000 in
theorem clearMask_fin : ∀ k : Fin 129, clearMaskVal k.val = 2 ^ k.val - 1 := by
  decide

theorem clearMask_eq {k : Nat} (hk : k ≤ 128) : clearMaskVal k = 2 ^ k - 1 := by
  simpa using clearMask_fin ⟨k, by omega⟩

theorem gen_next_gate_m_preserves (g : GateTag) (x y : Nat) (cct : garbled_circuit_m_t) :
    (gen_next_gate_m g x y cct).2.m_R = cct.m_R ∧
    (gen_next_gate_m g x y cct).2.m_gen_inp_com = cct.m_gen_inp_com ∧
    (gen_next_gate_m g x y cct).2.m_gen_inp_decom = cct.m_gen_inp_decom := by
  cases g <;> exact ⟨rfl, rfl, rfl⟩

theorem evl_next_gate_m_preserves (g : GateTag) (x y : Nat) (cct : garbled_circuit_m_t) :
    (evl_next_gate_m g x y cct).2.m_R = cct.m_R ∧
    (evl_next_gate_m g x y cct).2.m_gen_inp_com = cct.m_gen_inp_com ∧
    (evl_next_gate_m g x y cct).2.m_gen_inp_decom = cct.m_gen_inp_decom := by
  cases g <;> exact ⟨rfl, rfl, rfl⟩

theorem set_const_key_preserves (cct : garbled_circuit_m_t) (c : Nat) (key : Bytes) :
    (set_const_key cct c key).m_R = cct.m_R ∧
    (set_const_key cct c key).m_gen_inp_com = cct.m_gen_inp_com ∧
    (set_const_key cct c key).m_gen_inp_decom = cct.m_gen_inp_decom := by
  unfold set_const_key
  split <;> exact ⟨rfl, rfl, rfl⟩

/- ### Claim theorems -/

/-- Claim C1: for every session state whose decommitment vector and
commitment vector have equal length, `pass_check` returns true iff, for
every index `ix`, the hash of the ix-th stored decommitment at `Env::k()`
equals the ix-th stored commitment. -/
theorem pass_check_iff_hashes_match (env : Env) (cct : garbled_circuit_m_t)
    (h : cct.m_gen_inp_decom.length = cct.m_gen_inp_com.length) :
    pass_check env cct = true ↔
      ∀ ix < cct.m_gen_inp_decom.length,
        env.hash (cct.m_gen_inp_decom.getD ix []) env.k = cct.m_gen_inp_com.getD ix [] := by
  unfold pass_check
  rw [foldl_and_eq]
  simp [List.all_eq_true, List.mem_range]

/-- Witness for C1 at a state holding one matching pair under the concrete
configuration `env0`. -/
theorem pass_check_iff_hashes_match_witness : pass_check env0 stCom = true := by
  have h := pass_check_iff_hashes_match env0 stCom (by rfl)
  exact h.mpr (by decide)

/-- Claim C2: from the moment a role-specific initializer returns, through
every operation of the core, the point-and-permute tag bit (the low bit) of
the global offset `R` equals 1, and no operation changes `m_R`. -/
theorem R_tag_bit_invariant (env : Env) (s0 s : garbled_circuit_m_t)
    (h0 : RoleInit env s0) (h : Reach env s0 s) :
    s.m_R = s0.m_R ∧ s.m_R % 2 = 1 := by
  have hR : s.m_R = s0.m_R := by
    induction h with
    | refl => rfl
    | init_step _ ih => simpa [init] using ih
    | trim_step _ ih => simpa [trim_output] using ih
    | recv_step d _ ih => simpa [recv] using ih
    | send_step _ ih => simpa [send] using ih
    | gen_gate_step g x y _ ih => exact (gen_next_gate_m_preserves g x y _).1.trans ih
    | evl_gate_step g x y _ ih => exact (evl_next_gate_m_preserves g x y _).1.trans ih
    | const_key_step c key _ ih => exact (set_const_key_preserves _ c key).1.trans ih
    | com_step row kx _ ih => simpa [next_gen_inp_com] using ih
  refine ⟨hR, hR ▸ ?_⟩
  cases h0 with
  | gen keys gen_inp_mask seed cct => simp [gen_init]; omega
  | evl keys masked_gen_inp seed cct => simp [evl_init]

/-- Witness for C2 at the generator initializer with concrete arguments. -/
theorem R_tag_bit_invariant_witness :
    (gen_init env0 [] [] [5] st0).m_R = (gen_init env0 [] [] [5] st0).m_R ∧
    (gen_init env0 [] [] [5] st0).m_R % 2 = 1 :=
  R_tag_bit_invariant env0 _ _ (RoleInit.gen [] [] [5] st0) (Reach.refl _)

/-- Claim C3: `KDF128` and `KDF256` are deterministic — two calls with the
identical (label, key) pair produce identical outputs. -/
theorem KDF_deterministic (inp key : Bytes) :
    KDF128 inp key = KDF128 inp key ∧ KDF256 inp key = KDF256 inp key :=
  ⟨rfl, rfl⟩

/-- Claim C4 (amended): when the `uint32_t` additions `m_gen_out_ix + 7` and
`m_evl_out_ix + 7` do not wrap, `trim_output` resizes the generator-output
buffer to exactly `ceil(m_gen_out_ix/8) = (m_gen_out_ix+7)/8` bytes and the
evaluator-output buffer to exactly `(m_evl_out_ix+7)/8` bytes. -/
theorem trim_output_lengths (cct : garbled_circuit_m_t)
    (h1 : cct.m_gen_out_ix + 7 < 2 ^ 32) (h2 : cct.m_evl_out_ix + 7 < 2 ^ 32) :
    (trim_output cct).m_gen_out.length = (cct.m_gen_out_ix + 7) / 8 ∧
    (trim_output cct).m_evl_out.length = (cct.m_evl_out_ix + 7) / 8 := by
  simp only [trim_output, resize_length]
  rw [Nat.mod_eq_of_lt h1, Nat.mod_eq_of_lt h2]
  exact ⟨rfl, rfl⟩

/-- Counterexample to C4 as stated: at `m_gen_out_ix = 2^32 - 1` the
`uint32_t` sum `m_gen_out_ix + 7` wraps to 6, so the generator-output buffer
is resized to 0 bytes, not `ceil((2^32-1)/8) = 536870912` bytes. -/
theorem trim_output_overflow_cex :
    ¬ ((trim_output stOverflow).m_gen_out.length = (stOverflow.m_gen_out_ix + 7) / 8) := by
  decide

/-- Witness for C4 (amended): with `m_gen_out_ix = 10` the trimmed
generator-output buffer has exactly `ceil(10/8) = 2` bytes. -/
theorem trim_output_lengths_witness :
    (trim_output stTen).m_gen_out.length = 2 ∧ (trim_output stTen).m_evl_out.length = 0 := by
  have h := trim_output_lengths stTen (by decide) (by decide)
  exact ⟨h.1.trans (by decide), h.2.trans (by decide)⟩

/-- Claim C5: `send` returns exactly the bytes staged in the outgoing buffer
and leaves that buffer empty; a second `send` with no intervening staging
returns the empty byte sequence. -/
theorem send_drains_outgoing (cct : garbled_circuit_m_t) :
    (send cct).1 = cct.m_o_bufr ∧ (send cct).2.m_o_bufr = [] ∧
    (send (send cct).2).1 = [] := by
  simp [send]

/-- Claim C6: `recv` replaces the incoming buffer's contents with exactly
the delivered bytes, discarding what was held before, and resets the read
cursor to the start of the new buffer. -/
theorem recv_replaces_incoming (cct : garbled_circuit_m_t) (i_data : Bytes) :
    (recv cct i_data).m_i_bufr = i_data ∧ (recv cct i_data).m_i_bufr_ix = 0 := by
  simp [recv]

/-- Claim C7 (amended): after `init`, the gate counter and the four
role-specific input/output index counters are zero, the outgoing buffer is
empty, and the clear-mask has exactly the low `Env::k()` bits set; the hash
index counter `m_gen_inp_hash_ix` is left unchanged by `init` (it is not
among the counters `init` resets). -/
theorem init_resets (env : Env) (cct : garbled_circuit_m_t) (hk : env.k ≤ 128) :
    (init env cct).m_gate_ix = 0 ∧ (init env cct).m_gen_inp_ix = 0 ∧
    (init env cct).m_evl_inp_ix = 0 ∧ (init env cct).m_gen_out_ix = 0 ∧
    (init env cct).m_evl_out_ix = 0 ∧
    (init env cct).m_gen_inp_hash_ix = cct.m_gen_inp_hash_ix ∧
    (init env cct).m_o_bufr = [] ∧
    (init env cct).m_clear_mask = 2 ^ env.k - 1 ∧
    (∀ i : Nat, (init env cct).m_clear_mask.testBit i = decide (i < env.k)) := by
  refine ⟨rfl, rfl, rfl, rfl, rfl, rfl, rfl, clearMask_eq hk, ?_⟩
  intro i
  simp [init, clearMask_eq hk]

/-- Counterexample to C7 as stated: `init` does not reset
`m_gen_inp_hash_ix`; starting from a state where it is 3, it is still 3 (not
0) after `init`. -/
theorem init_hash_ix_cex : ¬ ((init env0 stHashIx).m_gen_inp_hash_ix = 0) := by
  decide

/-- Witness for C7 (amended) at the concrete configuration `env0` (k = 80)
and the empty state. -/
theorem init_resets_witness :
    (init env0 st0).m_gate_ix = 0 ∧ (init env0 st0).m_gen_inp_ix = 0 ∧
    (init env0 st0).m_evl_inp_ix = 0 ∧ (init env0 st0).m_gen_out_ix = 0 ∧
    (init env0 st0).m_evl_out_ix = 0 ∧
    (init env0 st0).m_gen_inp_hash_ix = st0.m_gen_inp_hash_ix ∧
    (init env0 st0).m_o_bufr = [] ∧
    (init env0 st0).m_clear_mask = 2 ^ env0.k - 1 ∧
    (∀ i : Nat, (init env0 st0).m_clear_mask.testBit i = decide (i < env0.k)) :=
  init_resets env0 st0 (by decide)

/-- Claim C8: in every state reached from a role-specific initializer by the
core's operations, the decommitment vector and the commitment vector have
equal length, so the `assert` at the entry of `pass_check` holds and its
failure branch is unreachable. -/
theorem pass_check_assertion_holds (env : Env) (s0 s : garbled_circuit_m_t)
    (h0 : RoleInit env s0) (h : Reach env s0 s) : pass_check_assertion s := by
  have base : pass_check_assertion s0 := by
    cases h0 with
    | gen keys gen_inp_mask seed cct => simp [gen_init, init, pass_check_assertion]
    | evl keys masked_gen_inp seed cct => simp [evl_init, init, pass_check_assertion]
  induction h with
  | refl => exact base
  | init_step _ ih => simpa [init, pass_check_assertion] using ih
  | trim_step _ ih => simpa [trim_output, pass_check_assertion] using ih
  | recv_step d _ ih => simpa [recv, pass_check_assertion] using ih
  | send_step _ ih => simpa [send, pass_check_assertion] using ih
  | gen_gate_step g x y _ ih =>
      unfold pass_check_assertion at ih ⊢
      rw [(gen_next_gate_m_preserves g x y _).2.1, (gen_next_gate_m_preserves g x y _).2.2]
      exact ih
  | evl_gate_step g x y _ ih =>
      unfold pass_check_assertion at ih ⊢
      rw [(evl_next_gate_m_preserves g x y _).2.1, (evl_next_gate_m_preserves g x y _).2.2]
      exact ih
  | const_key_step c key _ ih =>
      unfold pass_check_assertion at ih ⊢
      rw [(set_const_key_preserves _ c key).2.1, (set_const_key_preserves _ c key).2.2]
      exact ih
  | com_step row kx _ ih =>
      simp only [next_gen_inp_com, pass_check_assertion, List.length_append,
        List.length_cons, List.length_nil] at ih ⊢
      omega

/-- Witness for C8 at the generator initializer with one OT key. -/
theorem pass_check_assertion_holds_witness :
    pass_check_assertion (gen_init env0 [[7]] [1] [5] st0) :=
  pass_check_assertion_holds env0 _ _ (RoleInit.gen [[7]] [1] [5] st0) (Reach.refl _)

/-- Claim C9: when both the commitment vector and the decommitment vector
are empty, `pass_check` returns true. -/
theorem pass_check_empty_true (env : Env) (cct : garbled_circuit_m_t)
    (h1 : cct.m_gen_inp_decom = []) (h2 : cct.m_gen_inp_com = []) :
    pass_check env cct = true := by
  simp [pass_check, h1]

/-- Witness for C9 at the empty state. -/
theorem pass_check_empty_true_witness : pass_check env0 st0 = true :=
  pass_check_empty_true env0 st0 rfl rfl

/-- Claim C10: `trim_output` is idempotent — applying it twice with no
intervening change leaves the output buffers as after one application. -/
theorem trim_output_idempotent (cct : garbled_circuit_m_t) :
    trim_output (trim_output cct) = trim_output cct := by
  cases cct
  simp [trim_output, resize_resize]

end PCF
